import Mathlib

/-!
Verification of the Railway Temperature Dashboard data pipeline
(src/src/TemperatureDashboard.jsx) against its natural-language
specification.

The dashboard is a React component; the verifiable core is the pure
in-memory pipeline: CSV rows (as loosely typed JavaScript values
produced by Papa.parse with dynamicTyping) are normalized into records
with derived fields (display date string, severity), then filtered by
five predicates, sorted by a selectable key, and summarized into map
bounds.  We embed that pipeline shallowly:

* JavaScript values that can occur in a parsed row are modelled by
  `JSVal`: a finite number (as a rational), NaN, a string, null, or
  undefined.  Papa.parse with dynamicTyping yields numbers, strings,
  null (empty cell) or undefined (missing column), never NaN; NaN is
  kept in the model because derived sort keys can be NaN.
* JavaScript numeric coercion (ToNumber) is `jsToNumber`, with `none`
  playing the role of NaN.  String-to-number parsing models the plain
  decimal forms that survive dynamicTyping (sign, digits, decimal
  point); exotic coercions (hex literals, exponents, "Infinity") are
  outside the modelled subset and coerce to `none`.
* `Number.prototype.toString` is `numToString` (decimal rendering with
  bounded fuel for the fractional part; JavaScript doubles always
  terminate well inside the fuel).  Calling toString on null or
  undefined throws a TypeError, modelled by `Except Unit`.
* The external Date library (toLocaleString rendering and Date-string
  parsing) is kept abstract: normalization takes the rendering function
  as a parameter, and the filter pipeline takes the parsing function as
  a parameter.  The Date range clamp (instants beyond 8.64e15 ms are
  invalid) is modelled in `dateTimeOf` as a two-sided range check.
* Array.prototype.sort (stable since ES2019) is modelled by a stable
  insertion sort over the three-way comparator from the source.
-/

/-- A JavaScript value as it can appear in a parsed CSV row or derived
sort key: finite number, NaN, string, null, or undefined. -/
inductive JSVal where
  | num (q : ℚ)
  | nan
  | str (s : String)
  | null
  | undef
deriving DecidableEq

/-- Decimal digit test on characters (used by the ToNumber model). -/
def isDigitCh (c : Char) : Bool := 48 ≤ c.toNat && c.toNat ≤ 57

/-- Value of a list of decimal digit characters. -/
def digitsVal (l : List Char) : ℕ :=
  l.foldl (fun a c => a * 10 + (c.toNat - 48)) 0

/-- JavaScript whitespace test (the common cases). -/
def isWSCh (c : Char) : Bool :=
  c.toNat = 32 || c.toNat = 9 || c.toNat = 10 || c.toNat = 13 ||
  c.toNat = 11 || c.toNat = 12

/-- Trim leading and trailing whitespace from a character list. -/
def trimWS (l : List Char) : List Char :=
  ((l.dropWhile isWSCh).reverse.dropWhile isWSCh).reverse

/-- Parse an unsigned decimal literal (digits, optional decimal point,
digits), the numeric string form that survives Papa dynamicTyping.
Returns `none` for anything else (which coerces to NaN). -/
def parseDec (l : List Char) : Option ℚ :=
  match l.span isDigitCh with
  | (ds, rest) =>
    match rest with
    | [] => if ds.isEmpty then none else some (digitsVal ds)
    | c :: fs =>
      if c = '.' && fs.all isDigitCh && !(ds.isEmpty && fs.isEmpty) then
        some ((digitsVal ds : ℚ) + (digitsVal fs : ℚ) / (10 : ℚ) ^ fs.length)
      else none

/-- Model of JavaScript ToNumber on strings: trimmed empty string is 0,
signed decimal literals take their value, everything else is NaN. -/
def strToNum (s : String) : Option ℚ :=
  match trimWS s.toList with
  | [] => some 0
  | c :: l =>
    if c = '-' then (parseDec l).map (fun q => -q)
    else if c = '+' then parseDec l
    else parseDec (c :: l)

/-- Model of JavaScript ToNumber: `none` stands for NaN. -/
def jsToNumber : JSVal → Option ℚ
  | .num q => some q
  | .nan => none
  | .str s => strToNum s
  | .null => some 0
  | .undef => none

/-- Decimal digits of the fractional part r/d by long division, with
fuel (JavaScript doubles terminate within 1074 digits). -/
def fracDigits : ℕ → ℕ → ℕ → List Char
  | 0, _, _ => []
  | _ + 1, 0, _ => []
  | fuel + 1, r, d =>
    Char.ofNat (48 + r * 10 / d % 10) :: fracDigits fuel (r * 10 % d) d

/-- Model of Number.prototype.toString for finite numbers: plain
decimal rendering (sign, integer part, fractional digits). -/
def numToString (q : ℚ) : String :=
  let sgn := if q < 0 then "-" else ""
  let n := q.num.natAbs
  let d := q.den
  if n % d = 0 then sgn ++ Nat.repr (n / d)
  else sgn ++ Nat.repr (n / d) ++ "." ++ String.mk (fracDigits 1100 (n % d) d)

/-- Model of calling .toString() on a row field: numbers and strings
stringify; null and undefined throw a TypeError. -/
def jsToString : JSVal → Except Unit String
  | .num q => .ok (numToString q)
  | .nan => .ok ("NaN")
  | .str s => .ok s
  | .null => .error ()
  | .undef => .error ()

/-- Lexicographic comparison of character lists by code point, the
model of JavaScript string relational comparison. -/
def lexLt : List Char → List Char → Bool
  | [], [] => false
  | [], _ :: _ => true
  | _ :: _, [] => false
  | a :: as, b :: bs =>
    if a.toNat < b.toNat then true
    else if b.toNat < a.toNat then false
    else lexLt as bs

/-- JavaScript string relational comparison. -/
def strLtJS (s t : String) : Bool := lexLt s.toList t.toList

/-- Model of String.prototype.toLowerCase. -/
def strLower (s : String) : String := String.mk (s.toList.map Char.toLower)

/-- Whether the second list is a prefix of the first. -/
def hasPrefList : List Char → List Char → Bool
  | _, [] => true
  | [], _ :: _ => false
  | a :: as, b :: bs => a = b && hasPrefList as bs

/-- Whether the second list occurs as a contiguous sublist of the
first. -/
def hasSubList : List Char → List Char → Bool
  | [], sub => sub.isEmpty
  | s :: rest, sub => hasPrefList (s :: rest) sub || hasSubList rest sub

/-- Model of String.prototype.includes. -/
def hasSub (s sub : String) : Bool := hasSubList s.toList sub.toList

/-- JavaScript relational comparison value >= numeric literal
(false when the value coerces to NaN). -/
def jsGeV (v : JSVal) (m : ℚ) : Bool :=
  match jsToNumber v with
  | some x => decide (m ≤ x)
  | none => false

/-- JavaScript relational comparison value <= numeric literal. -/
def jsLeV (v : JSVal) (m : ℚ) : Bool :=
  match jsToNumber v with
  | some x => decide (x ≤ m)
  | none => false

/-- JavaScript >= on two number-or-NaN values. -/
def jsOptGe (a b : Option ℚ) : Bool :=
  match a, b with
  | some x, some y => decide (y ≤ x)
  | _, _ => false

/-- JavaScript <= on two number-or-NaN values. -/
def jsOptLe (a b : Option ℚ) : Bool :=
  match a, b with
  | some x, some y => decide (x ≤ y)
  | _, _ => false

/-- Pack a number-or-NaN into a JSVal. -/
def optToJS : Option ℚ → JSVal
  | some q => .num q
  | none => .nan

/-- JavaScript abstract relational comparison a < b as used by the
sort comparator: lexicographic when both operands are strings,
otherwise numeric coercion with NaN making the comparison false. -/
def jsvLt (a b : JSVal) : Bool :=
  match a, b with
  | .str s, .str t => strLtJS s t
  | _, _ =>
    match jsToNumber a, jsToNumber b with
    | some x, some y => decide (x < y)
    | _, _ => false

/-- A raw CSV row as parsed by Papa.parse with header and
dynamicTyping: six named fields of loosely typed values. -/
structure RawRow where
  UNIX_TIME : JSVal
  LATITUDE : JSVal
  LONGITUDE : JSVal
  POSITION_YARDS : JSVal
  SCORE : JSVal
  RECORDING_ID : JSVal
deriving DecidableEq

/-- A normalized record: the raw fields (spread) plus the derived
display date string and severity classification. -/
structure Record where
  UNIX_TIME : JSVal
  LATITUDE : JSVal
  LONGITUDE : JSVal
  POSITION_YARDS : JSVal
  SCORE : JSVal
  RECORDING_ID : JSVal
  date : String
  severity : String
deriving DecidableEq

/-- The instant (in milliseconds) held by new Date(row.UNIX_TIME *
1000): NaN input gives an invalid date, and instants beyond the
JavaScript Date range (8.64e15 ms) are invalid.  `none` is the invalid
date / NaN. -/
def dateTimeOf (v : JSVal) : Option ℚ :=
  match jsToNumber v with
  | none => none
  | some u =>
    if -8640000000000000 ≤ u * 1000 ∧ u * 1000 ≤ 8640000000000000 then
      some (u * 1000)
    else none

/-- The row-to-record conversion from loadData (lines 165-174): spread
the row, derive date via toLocaleString (passed in as `dfmt`, the model
of the external Date rendering, applied to the instant or to the
invalid date), and derive severity by the SCORE thresholds. -/
def normalizeRow (dfmt : Option ℚ → String) (row : RawRow) : Record :=
  { UNIX_TIME := row.UNIX_TIME
    LATITUDE := row.LATITUDE
    LONGITUDE := row.LONGITUDE
    POSITION_YARDS := row.POSITION_YARDS
    SCORE := row.SCORE
    RECORDING_ID := row.RECORDING_ID
    date := dfmt (dateTimeOf row.UNIX_TIME)
    severity :=
      if jsGeV row.SCORE 70 then "high"
      else if jsGeV row.SCORE 55 then "medium"
      else "low" }

/-- Modelled from the spec: severity as a total function of SCORE with
thresholds 70 and 55, and LOW for a SCORE that is missing or does not
coerce to a number.  Compared against the severity the code derives. -/
def claimSeverity (v : JSVal) : String :=
  match jsToNumber v with
  | none => "low"
  | some q => if 70 ≤ q then "high" else if 55 ≤ q then "medium" else "low"

/-- The sortable column keys of the table (sortConfig.key; the null
key is represented by `Option` at the use sites). -/
inductive SortKey where
  | date
  | RECORDING_ID
  | POSITION_YARDS
  | LATITUDE
  | LONGITUDE
  | SCORE
  | severity
deriving DecidableEq

/-- Sort direction. -/
inductive SortDir where
  | asc
  | desc
deriving DecidableEq

/-- The sortConfig state: active key (or none) and direction. -/
structure SortConfig where
  key : Option SortKey
  direction : SortDir
deriving DecidableEq

/-- The comparator operand for a record under a sort key, from
getSortedData (lines 113-126): the raw field, except that the date key
uses new Date(a.UNIX_TIME * 1000).getTime() and the severity key uses
the rank table with high 3, medium 2, low 1 (an unknown severity
string indexes to undefined). -/
def sortValue (k : SortKey) (r : Record) : JSVal :=
  match k with
  | .date => optToJS (dateTimeOf r.UNIX_TIME)
  | .severity =>
    if r.severity = "high" then .num 3
    else if r.severity = "medium" then .num 2
    else if r.severity = "low" then .num 1
    else .undef
  | .RECORDING_ID => r.RECORDING_ID
  | .POSITION_YARDS => r.POSITION_YARDS
  | .LATITUDE => r.LATITUDE
  | .LONGITUDE => r.LONGITUDE
  | .SCORE => r.SCORE

/-- The three-way comparator body (lines 128-130): aValue < bValue
gives -1 ascending / 1 descending, aValue > bValue the opposite,
otherwise 0. -/
def jsCmp3 (av bv : JSVal) (dir : SortDir) : Int :=
  if jsvLt av bv then (match dir with | .asc => -1 | .desc => 1)
  else if jsvLt bv av then (match dir with | .asc => 1 | .desc => -1)
  else 0

/-- The record comparator for a given sort key and direction. -/
def recordCmp (k : SortKey) (dir : SortDir) (a b : Record) : Int :=
  jsCmp3 (sortValue k a) (sortValue k b) dir

/-- Insert an element into a sorted list, before the first element it
does not compare strictly greater than (the head of the recursion in a
stable insertion sort). -/
def insertCmp {α : Type} (cmp : α → α → Int) (x : α) : List α → List α
  | [] => [x]
  | y :: ys => if cmp x y ≤ 0 then x :: y :: ys else y :: insertCmp cmp x ys

/-- Stable sort by a three-way comparator: the model of
Array.prototype.sort, which is required to be stable by the language
specification. -/
def sortCmp {α : Type} (cmp : α → α → Int) : List α → List α
  | [] => []
  | x :: xs => insertCmp cmp x (sortCmp cmp xs)

/-- getSortedData (lines 110-132): identity when no key is set,
otherwise a stable sort of a copy of the input by the comparator. -/
def getSortedData (cfg : SortConfig) (l : List Record) : List Record :=
  match cfg.key with
  | none => l
  | some k => sortCmp (recordCmp k cfg.direction) l

/-- The FilterState: date bounds (outer `none` is the empty string,
i.e. the filter is off; the inner option is the instant the bound
string parses to, `none` for NaN), selected severity (the string from
the select control, with the sentinel all), temperature bounds (`none`
is the cleared input, i.e. open), and the search term. -/
structure FilterState where
  dateFrom : Option (Option ℚ)
  dateTo : Option (Option ℚ)
  selectedSeverity : String
  tempMin : Option ℚ
  tempMax : Option ℚ
  searchTerm : String
deriving DecidableEq

/-- The temperature predicate (lines 232-236): each bound passes when
cleared, otherwise SCORE must be on the right side of it (NaN
comparisons are false, so a non-numeric SCORE fails a set bound). -/
def tempPredB (mn mx : Option ℚ) (r : Record) : Bool :=
  (match mn with | none => true | some m => jsGeV r.SCORE m) &&
  (match mx with | none => true | some m => jsLeV r.SCORE m)

/-- The search predicate (lines 241-249): short-circuiting OR over the
six fields.  Only row.date is lowercased before matching; the other
five fields are stringified with .toString(), which throws on null or
undefined, modelled by the Except error. -/
def searchRow (t : String) (r : Record) : Except Unit Bool := do
  let tl := strLower t
  if hasSub (strLower r.date) tl then return true
  else
    let s1 ← jsToString r.SCORE
    if hasSub s1 tl then return true
    else
      let s2 ← jsToString r.POSITION_YARDS
      if hasSub s2 tl then return true
      else
        let s3 ← jsToString r.LATITUDE
        if hasSub s3 tl then return true
        else
          let s4 ← jsToString r.LONGITUDE
          if hasSub s4 tl then return true
          else
            let s5 ← jsToString r.RECORDING_ID
            return hasSub s5 tl

/-- Array.prototype.filter with a callback that can throw: elements
are tested left to right and the first exception aborts the pass. -/
def filterExc {α : Type} (f : α → Except Unit Bool) : List α → Except Unit (List α)
  | [] => .ok []
  | x :: xs => do
    let b ← f x
    let rest ← filterExc f xs
    return if b then x :: rest else rest

/-- The four non-throwing filter stages of the filter effect (lines
210-236), applied in source order: date-from, date-to, severity,
temperature.  `p` is the model of the external Date-string parser used
on row.date (new Date(row.date).getTime(), `none` for NaN). -/
def preSearch (p : String → Option ℚ) (F : FilterState) (data : List Record) :
    List Record :=
  let d1 :=
    match F.dateFrom with
    | none => data
    | some ft => data.filter fun r => jsOptGe (p r.date) ft
  let d2 :=
    match F.dateTo with
    | none => d1
    | some tt => d1.filter fun r => jsOptLe (p r.date) tt
  let d3 :=
    if F.selectedSeverity ≠ "all" then
      d2.filter fun r => decide (r.severity = F.selectedSeverity)
    else d2
  d3.filter fun r => tempPredB F.tempMin F.tempMax r

/-- The whole filter effect (lines 210-252): the four pure stages,
then, when the search term is non-empty, the throwing search stage. -/
def filterPipeline (p : String → Option ℚ) (F : FilterState)
    (data : List Record) : Except Unit (List Record) :=
  if F.searchTerm = "" then .ok (preSearch p F data)
  else filterExc (searchRow F.searchTerm) (preSearch p F data)

/-- The FilterState in which every bound is open or unset: empty date
bounds, severity all, both temperature bounds cleared, empty search. -/
def openFilterState : FilterState :=
  { dateFrom := none, dateTo := none, selectedSeverity := "all"
    tempMin := none, tempMax := none, searchTerm := "" }

/-- The documented default FilterState (initial values, lines 56-65,
and the reset values, lines 263-270): temperature range 40 to 80,
severity all, empty search and date bounds. -/
def defaultFilterState : FilterState :=
  { dateFrom := none, dateTo := none, selectedSeverity := "all"
    tempMin := some 40, tempMax := some 80, searchTerm := "" }

/-- Modelled from the spec: one search field matches when the term
occurs as a case-insensitive substring of its string representation; a
field that cannot be stringified is non-matching. -/
def fieldMatches (v : JSVal) (tl : String) : Bool :=
  match jsToString v with
  | .ok s => hasSub (strLower s) tl
  | .error _ => false

/-- Modelled from the spec: the search predicate of C5 as the spec
words it, a case-insensitive substring match against the string
representations of all six fields, OR across fields. -/
def specSearchMatches (t : String) (r : Record) : Bool :=
  let tl := strLower t
  hasSub (strLower r.date) tl || fieldMatches r.SCORE tl ||
  fieldMatches r.POSITION_YARDS tl || fieldMatches r.LATITUDE tl ||
  fieldMatches r.LONGITUDE tl || fieldMatches r.RECORDING_ID tl

/-- Whether calling .toString() on the value succeeds (it throws
exactly on null and undefined). -/
def JSVal.canStr : JSVal → Bool
  | .null => false
  | .undef => false
  | _ => true

/-- Whether every field the search predicate stringifies is
stringifiable for this record. -/
def recStringifiable (r : Record) : Bool :=
  r.SCORE.canStr && r.POSITION_YARDS.canStr && r.LATITUDE.canStr &&
  r.LONGITUDE.canStr && r.RECORDING_ID.canStr

/-- The rectangle handed to L.latLngBounds (lines 188-193): the two
corners (min latitude, min longitude) and (max latitude, max
longitude), as possibly-NaN numbers. -/
structure LatLngBounds where
  corner1 : Option ℚ × Option ℚ
  corner2 : Option ℚ × Option ℚ
deriving DecidableEq

/-- Math.min on two values, NaN absorbing. -/
def jsMin2 (a b : Option ℚ) : Option ℚ :=
  match a, b with
  | some x, some y => some (min x y)
  | _, _ => none

/-- Math.max on two values, NaN absorbing. -/
def jsMax2 (a b : Option ℚ) : Option ℚ :=
  match a, b with
  | some x, some y => some (max x y)
  | _, _ => none

/-- The midpoint (a + b) / 2, NaN absorbing. -/
def jsAvg (a b : Option ℚ) : Option ℚ :=
  match a, b with
  | some x, some y => some ((x + y) / 2)
  | _, _ => none

/-- The map-view computation in loadData (lines 179-194): nothing is
produced for an empty record list (mapCenter and mapBounds keep their
previous values and the map guard `mapBounds` stays null on first
load); otherwise the center is the midpoint of the latitude and
longitude extremes and the bounds rectangle is the extreme corners. -/
def computeMapView (recs : List Record) :
    Option ((Option ℚ × Option ℚ) × LatLngBounds) :=
  match recs with
  | [] => none
  | r :: rs =>
    let minLat := (rs.map fun d => jsToNumber d.LATITUDE).foldl jsMin2 (jsToNumber r.LATITUDE)
    let maxLat := (rs.map fun d => jsToNumber d.LATITUDE).foldl jsMax2 (jsToNumber r.LATITUDE)
    let minLng := (rs.map fun d => jsToNumber d.LONGITUDE).foldl jsMin2 (jsToNumber r.LONGITUDE)
    let maxLng := (rs.map fun d => jsToNumber d.LONGITUDE).foldl jsMax2 (jsToNumber r.LONGITUDE)
    some ((jsAvg minLat maxLat, jsAvg minLng maxLng),
          { corner1 := (minLat, minLng), corner2 := (maxLat, maxLng) })

/-- Minimum of a rational list with an explicit head, for stating the
bounds claim. -/
def listMinQ (q : ℚ) (l : List ℚ) : ℚ := l.foldl min q

/-- Maximum of a rational list with an explicit head. -/
def listMaxQ (q : ℚ) (l : List ℚ) : ℚ := l.foldl max q

/-- The component state owned by the dashboard (the useState hooks,
lines 54-65), minus filteredData, which is derived by the filter
effect and modelled as the derived value `displayedRows`. -/
structure DashState where
  data : List Record
  temperatureRange : Option ℚ × Option ℚ
  searchTerm : String
  selectedSeverity : String
  isDarkMode : Bool
  sortConfig : SortConfig
  isMapExpanded : Bool
  mapCenter : Option ℚ × Option ℚ
  mapBounds : Option LatLngBounds
  dateFrom : Option (Option ℚ)
  dateTo : Option (Option ℚ)
deriving DecidableEq

/-- The initial hook values (lines 54-65). -/
def initialState : DashState :=
  { data := []
    temperatureRange := (some 40, some 80)
    searchTerm := ""
    selectedSeverity := "all"
    isDarkMode := false
    sortConfig := { key := none, direction := .asc }
    isMapExpanded := false
    mapCenter := (some (51505/1000), some (-9/100))
    mapBounds := none
    dateFrom := none
    dateTo := none }

/-- The FilterState carried inside the dashboard state. -/
def filterStateOf (s : DashState) : FilterState :=
  { dateFrom := s.dateFrom
    dateTo := s.dateTo
    selectedSeverity := s.selectedSeverity
    tempMin := s.temperatureRange.1
    tempMax := s.temperatureRange.2
    searchTerm := s.searchTerm }

/-- handleReset (lines 263-270): restore the five filter fields and
the sort configuration; every other piece of state is untouched. -/
def handleReset (s : DashState) : DashState :=
  { s with
    temperatureRange := (some 40, some 80)
    searchTerm := ""
    selectedSeverity := "all"
    dateFrom := none
    dateTo := none
    sortConfig := { key := none, direction := .asc } }

/-- The displayed row sequence in the settled state: the filter effect
recomputes filteredData from the base data and the filter fields, and
the table renders getSortedData(filteredData). -/
def displayedRows (p : String → Option ℚ) (s : DashState) :
    Except Unit (List Record) :=
  (filterPipeline p (filterStateOf s) s.data).map (getSortedData s.sortConfig)

/-- C1: for every parsed raw row, normalization assigns severity as a
total function of SCORE with the thresholds of the spec, including the
boundary cases SCORE = 70 (high), 69.999 (medium), 55 (medium), 54.999
(low), and LOW for a missing (undefined) or null SCORE. -/
theorem C1_severity_total_function (dfmt : Option ℚ → String) (row : RawRow) :
    (normalizeRow dfmt row).severity = claimSeverity row.SCORE ∧
    (normalizeRow dfmt { row with SCORE := .num 70 }).severity = "high" ∧
    (normalizeRow dfmt { row with SCORE := .num (69999/1000) }).severity = "medium" ∧
    (normalizeRow dfmt { row with SCORE := .num 55 }).severity = "medium" ∧
    (normalizeRow dfmt { row with SCORE := .num (54999/1000) }).severity = "low" ∧
    (normalizeRow dfmt { row with SCORE := .undef }).severity = "low" ∧
    (normalizeRow dfmt { row with SCORE := .null }).severity = "low" := by
  refine ⟨?_, ?_, ?_, ?_, ?_, ?_, ?_⟩
  · unfold normalizeRow claimSeverity jsGeV
    cases h : jsToNumber row.SCORE with
    | none => simp
    | some q =>
      simp only []
      by_cases h70 : (70 : ℚ) ≤ q
      · simp [h70]
      · by_cases h55 : (55 : ℚ) ≤ q <;> simp [h70, h55]
  · norm_num [normalizeRow, jsGeV, jsToNumber]
  · norm_num [normalizeRow, jsGeV, jsToNumber]
  · norm_num [normalizeRow, jsGeV, jsToNumber]
  · norm_num [normalizeRow, jsGeV, jsToNumber]
  · norm_num [normalizeRow, jsGeV, jsToNumber]
  · norm_num [normalizeRow, jsGeV, jsToNumber]

/-- Bind on a successful Except computation. -/
theorem exceptBind_ok {α β : Type} (a : α) (k : α → Except Unit β) :
    (Except.ok a >>= k) = k a := rfl

/-- Filtering by the constantly true predicate is the identity. -/
theorem filterTrueId {α : Type} (l : List α) : (l.filter fun _ => true) = l := by
  induction l with
  | nil => rfl
  | cons x xs ih => simp [List.filter_cons, ih]

/-- C4: with every bound open or unset (empty date bounds, severity
all, both temperature bounds cleared, empty search term), the filter
pipeline is the identity: it returns the input sequence unchanged and
raises nothing. -/
theorem C4_open_filter_identity (p : String → Option ℚ) (data : List Record) :
    filterPipeline p openFilterState data = .ok data := by
  simp [filterPipeline, preSearch, openFilterState, tempPredB, filterTrueId]

/-- C8: after handleReset, the FilterState equals its documented
defaults (temperature range 40 to 80, severity all, empty search and
date bounds), the sort key is cleared, and the displayed sequence is
exactly the filter pipeline applied to the base data under the default
FilterState, with no sort applied. -/
theorem C8_reset_restores_defaults (p : String → Option ℚ) (s : DashState) :
    filterStateOf (handleReset s) = defaultFilterState ∧
    (handleReset s).sortConfig.key = none ∧
    displayedRows p (handleReset s) = filterPipeline p defaultFilterState s.data := by
  refine ⟨rfl, rfl, ?_⟩
  show (filterPipeline p defaultFilterState s.data).map
      (getSortedData { key := none, direction := .asc }) = _
  cases filterPipeline p defaultFilterState s.data <;> rfl

/-- C10: handleReset changes only the five filter fields and the sort
configuration; the base record collection, the dark-mode flag, the
map-expansion flag, the map center, and the map bounds all keep their
previous values. -/
theorem C10_reset_frame (s : DashState) :
    (handleReset s).data = s.data ∧
    (handleReset s).isDarkMode = s.isDarkMode ∧
    (handleReset s).isMapExpanded = s.isMapExpanded ∧
    (handleReset s).mapCenter = s.mapCenter ∧
    (handleReset s).mapBounds = s.mapBounds :=
  ⟨rfl, rfl, rfl, rfl, rfl⟩

/-- C9: the temperature predicate runs on every pass and the initial
and post-reset temperature range is the concrete interval from 40 to
80: under the default FilterState the pipeline reduces to exactly a
SCORE-range filter, and a record whose numeric SCORE is below 40 or
above 80 is excluded even though the user has set no filter. -/
theorem C9_default_temp_filter (p : String → Option ℚ) (data : List Record)
    (r : Record) (q : ℚ) (hq : jsToNumber r.SCORE = some q)
    (hout : q < 40 ∨ 80 < q) :
    defaultFilterState.tempMin = some 40 ∧
    defaultFilterState.tempMax = some 80 ∧
    filterStateOf initialState = defaultFilterState ∧
    filterPipeline p defaultFilterState data =
      .ok (data.filter fun x => jsGeV x.SCORE 40 && jsLeV x.SCORE 80) ∧
    r ∉ data.filter fun x => jsGeV x.SCORE 40 && jsLeV x.SCORE 80 := by
  refine ⟨rfl, rfl, rfl, ?_, ?_⟩
  · simp [filterPipeline, preSearch, defaultFilterState, tempPredB]
  · intro hmem
    have hpred := (List.mem_filter.mp hmem).2
    simp only [jsGeV, jsLeV, hq, Bool.and_eq_true, decide_eq_true_eq] at hpred
    rcases hout with h | h
    · exact absurd hpred.1 (by linarith)
    · exact absurd hpred.2 (by linarith)

/-- A sample low-score record for the C9 witness. -/
def C9rec : Record :=
  { UNIX_TIME := .num 0, LATITUDE := .num 0, LONGITUDE := .num 0,
    POSITION_YARDS := .num 0, SCORE := .num 30, RECORDING_ID := .num 1,
    date := "d", severity := "low" }

/-- C9 witness: a concrete record with SCORE 30 is excluded from the
default-filtered set. -/
theorem C9_default_temp_filter_witness :
    C9rec ∉ [C9rec].filter fun x => jsGeV x.SCORE 40 && jsLeV x.SCORE 80 :=
  (C9_default_temp_filter (fun _ => none) [C9rec] C9rec 30 rfl
    (Or.inl (by norm_num))).2.2.2.2

/-- lexLt is irreflexive. -/
theorem lexLt_self (l : List Char) : lexLt l l = false := by
  induction l with
  | nil => rfl
  | cons a as ih => simp [lexLt, ih]

/-- The JavaScript relational comparison is irreflexive on every
value (NaN operands compare false, numbers and strings strictly). -/
theorem jsvLt_self (v : JSVal) : jsvLt v v = false := by
  cases v with
  | str s => simp [jsvLt, strLtJS, lexLt_self]
  | num q => simp [jsvLt, jsToNumber]
  | nan => rfl
  | null => simp [jsvLt, jsToNumber]
  | undef => rfl

/-- The three-way comparator sends equal operands to 0 in both
directions. -/
theorem jsCmp3_self (v : JSVal) (dir : SortDir) : jsCmp3 v v dir = 0 := by
  simp [jsCmp3, jsvLt_self]

/-- Membership in an insertion. -/
theorem mem_insertCmp {α : Type} (cmp : α → α → Int) (x : α) (l : List α)
    (y : α) : y ∈ insertCmp cmp x l ↔ y = x ∨ y ∈ l := by
  induction l with
  | nil => simp [insertCmp]
  | cons a as ih =>
    rw [insertCmp]
    split
    · simp [List.mem_cons]
    · simp only [List.mem_cons, ih]
      tauto

/-- Insertion produces a permutation of consing. -/
theorem perm_insertCmp {α : Type} (cmp : α → α → Int) (x : α) (l : List α) :
    (insertCmp cmp x l).Perm (x :: l) := by
  induction l with
  | nil => exact List.Perm.refl _
  | cons a as ih =>
    rw [insertCmp]
    split
    · exact List.Perm.refl _
    · exact (ih.cons a).trans (List.Perm.swap x a as)

/-- The stable sort permutes its input. -/
theorem perm_sortCmp {α : Type} (cmp : α → α → Int) (l : List α) :
    (sortCmp cmp l).Perm l := by
  induction l with
  | nil => exact List.Perm.refl _
  | cons x xs ih => exact (perm_insertCmp cmp x (sortCmp cmp xs)).trans (ih.cons x)

/-- Inserting an element that satisfies the predicate and ties with
every predicate-satisfying element of the list appends it to the
filtered subsequence. -/
theorem filter_insertCmp_pos {α : Type} (cmp : α → α → Int) (pr : α → Bool)
    (x : α) (l : List α) (hx : pr x = true)
    (hty : ∀ y ∈ l, pr y = true → cmp x y = 0) :
    (insertCmp cmp x l).filter pr = x :: l.filter pr := by
  induction l with
  | nil => simp [insertCmp, hx]
  | cons a as ih =>
    rw [insertCmp]
    split
    · rw [List.filter_cons_of_pos hx]
    · rename_i hcmp
      have ha : pr a = false := by
        cases hpa : pr a with
        | false => rfl
        | true => exact absurd (le_of_eq (hty a (List.mem_cons_self a as) hpa)) hcmp
      rw [List.filter_cons_of_neg (by simp [ha]),
        ih (fun y hy hpy => hty y (List.mem_cons_of_mem a hy) hpy),
        List.filter_cons_of_neg (by simp [ha])]

/-- Inserting an element that fails the predicate leaves the filtered
subsequence unchanged. -/
theorem filter_insertCmp_neg {α : Type} (cmp : α → α → Int) (pr : α → Bool)
    (x : α) (l : List α) (hx : pr x = false) :
    (insertCmp cmp x l).filter pr = l.filter pr := by
  induction l with
  | nil => simp [insertCmp, hx]
  | cons a as ih =>
    rw [insertCmp]
    split
    · rw [List.filter_cons_of_neg (by simp [hx])]
    · cases hpa : pr a with
      | true =>
        rw [List.filter_cons_of_pos hpa, ih, List.filter_cons_of_pos hpa]
      | false =>
        rw [List.filter_cons_of_neg (by simp [hpa]), ih,
          List.filter_cons_of_neg (by simp [hpa])]

/-- Stability of the sort, as preservation of every filtered
subsequence whose members pairwise tie under the comparator. -/
theorem filter_sortCmp {α : Type} (cmp : α → α → Int) (pr : α → Bool)
    (l : List α)
    (H : ∀ a ∈ l, ∀ b ∈ l, pr a = true → pr b = true → cmp a b = 0) :
    (sortCmp cmp l).filter pr = l.filter pr := by
  induction l with
  | nil => rfl
  | cons x xs ih =>
    have Hxs : ∀ a ∈ xs, ∀ b ∈ xs, pr a = true → pr b = true → cmp a b = 0 :=
      fun a ha b hb => H a (List.mem_cons_of_mem x ha) b (List.mem_cons_of_mem x hb)
    rw [sortCmp]
    cases hx : pr x with
    | true =>
      rw [filter_insertCmp_pos cmp pr x (sortCmp cmp xs) hx ?hty,
        ih Hxs, List.filter_cons_of_pos hx]
      case hty =>
        intro y hy hpy
        have hyxs : y ∈ xs := (perm_sortCmp cmp xs).mem_iff.mp hy
        exact H x (List.mem_cons_self x xs) y (List.mem_cons_of_mem x hyxs) hx hpy
    | false =>
      rw [filter_insertCmp_neg cmp pr x (sortCmp cmp xs) hx, ih Hxs,
        List.filter_cons_of_neg (by simp [hx])]

/-- C7: for every sort key and both directions, sorting permutes the
input (the source sorts a copy, [...dataToSort].sort, and this pure
embedding cannot mutate the input sequence at all), and for every
sort-key value v the subsequence of records whose key equals v is
preserved exactly: records with equal sort-key values keep their
relative input order, which is stability. -/
theorem C7_sort_stable_both_directions (k : SortKey) (dir : SortDir)
    (recs : List Record) (v : JSVal) :
    (getSortedData { key := some k, direction := dir } recs).Perm recs ∧
    (getSortedData { key := some k, direction := dir } recs).filter
        (fun r => decide (sortValue k r = v)) =
      recs.filter (fun r => decide (sortValue k r = v)) := by
  constructor
  · exact perm_sortCmp _ _
  · apply filter_sortCmp
    intro a _ b _ ha hb
    have ha' : sortValue k a = v := of_decide_eq_true ha
    have hb' : sortValue k b = v := of_decide_eq_true hb
    rw [recordCmp, ha', hb', jsCmp3_self]

/-- Pointwise equal comparators insert identically. -/
theorem insertCmp_congr {α : Type} (cmp₁ cmp₂ : α → α → Int) (x : α)
    (l : List α) (h : ∀ y ∈ l, cmp₁ x y = cmp₂ x y) :
    insertCmp cmp₁ x l = insertCmp cmp₂ x l := by
  induction l with
  | nil => rfl
  | cons a as ih =>
    rw [insertCmp, insertCmp, h a (List.mem_cons_self a as),
      ih (fun y hy => h y (List.mem_cons_of_mem a hy))]

/-- Comparators that agree on all pairs of list members sort
identically. -/
theorem sortCmp_congr {α : Type} (cmp₁ cmp₂ : α → α → Int) (l : List α)
    (H : ∀ a ∈ l, ∀ b ∈ l, cmp₁ a b = cmp₂ a b) :
    sortCmp cmp₁ l = sortCmp cmp₂ l := by
  induction l with
  | nil => rfl
  | cons x xs ih =>
    have Hxs : ∀ a ∈ xs, ∀ b ∈ xs, cmp₁ a b = cmp₂ a b :=
      fun a ha b hb => H a (List.mem_cons_of_mem x ha) b (List.mem_cons_of_mem x hb)
    rw [sortCmp, sortCmp, ih Hxs]
    apply insertCmp_congr
    intro y hy
    have hyxs : y ∈ xs := (perm_sortCmp cmp₂ xs).mem_iff.mp (ih Hxs ▸ hy)
    exact H x (List.mem_cons_self x xs) y (List.mem_cons_of_mem x hyxs)

/-- C2: for records whose stored date string parses back (through the
external Date parser model p) to exactly the instant the code derives
from UNIX_TIME, the chronological sort equals the sort obtained by
parsing displayTimestamp back to a timestamp and comparing the
instants numerically with the same comparator: the order is by
underlying instant, not by lexical string order of the date field. -/
theorem C2_date_sort_by_instant (p : String → Option ℚ) (dir : SortDir)
    (recs : List Record)
    (hp : ∀ r ∈ recs, p r.date = dateTimeOf r.UNIX_TIME) :
    getSortedData { key := some .date, direction := dir } recs =
      sortCmp (fun a b => jsCmp3 (optToJS (p a.date)) (optToJS (p b.date)) dir)
        recs := by
  show sortCmp (recordCmp .date dir) recs = _
  apply sortCmp_congr
  intro a ha b hb
  rw [recordCmp]
  simp [sortValue, hp a ha, hp b hb]

/-- A sample record one minute after the epoch, for the C2 witness. -/
def C2recA : Record :=
  { UNIX_TIME := .num 60, LATITUDE := .num 0, LONGITUDE := .num 0,
    POSITION_YARDS := .num 0, SCORE := .num 50, RECORDING_ID := .num 1,
    date := "DA", severity := "low" }

/-- A sample record at the epoch, for the C2 witness. -/
def C2recB : Record :=
  { UNIX_TIME := .num 0, LATITUDE := .num 0, LONGITUDE := .num 0,
    POSITION_YARDS := .num 0, SCORE := .num 50, RECORDING_ID := .num 2,
    date := "DB", severity := "low" }

/-- A concrete Date-parser model that inverts the display strings of
the two C2 sample records. -/
def C2parse (s : String) : Option ℚ :=
  if s = "DA" then some 60000 else if s = "DB" then some 0 else none

/-- C2 witness: on a concrete two-record list whose date strings parse
back to their instants, the chronological sort equals the
parse-and-compare sort. -/
theorem C2_date_sort_witness :
    getSortedData { key := some .date, direction := .asc } [C2recA, C2recB] =
      sortCmp
        (fun a b => jsCmp3 (optToJS (C2parse a.date)) (optToJS (C2parse b.date)) .asc)
        [C2recA, C2recB] :=
  C2_date_sort_by_instant C2parse .asc [C2recA, C2recB] (by
    intro r hr
    fin_cases hr
    · norm_num [C2parse, C2recA, C2recB, dateTimeOf, jsToNumber]
    · norm_num [C2parse, C2recA, C2recB, dateTimeOf, jsToNumber]
      decide)

/-- Every record surviving the four pure filter stages is in the
input. -/
theorem mem_preSearch (p : String → Option ℚ) (F : FilterState)
    (data : List Record) (r : Record) (h : r ∈ preSearch p F data) :
    r ∈ data := by
  rcases F with ⟨df, dt, sev, mn, mx, st⟩
  cases df <;> cases dt <;> by_cases hs : sev = "all" <;>
    simp [preSearch, hs, List.mem_filter] at h <;> tauto

/-- A stringifiable value gives toString a result. -/
theorem canStr_toString (v : JSVal) (h : v.canStr = true) :
    ∃ s, jsToString v = .ok s := by
  cases v with
  | num q => exact ⟨numToString q, rfl⟩
  | nan => exact ⟨"NaN", rfl⟩
  | str s => exact ⟨s, rfl⟩
  | null => simp [JSVal.canStr] at h
  | undef => simp [JSVal.canStr] at h

/-- The search predicate succeeds on a record whose five stringified
fields are all stringifiable. -/
theorem searchRow_ok_of_stringifiable (t : String) (r : Record)
    (h : recStringifiable r = true) : ∃ b, searchRow t r = .ok b := by
  simp only [recStringifiable, Bool.and_eq_true] at h
  obtain ⟨⟨⟨⟨h1, h2⟩, h3⟩, h4⟩, h5⟩ := h
  obtain ⟨s1, hs1⟩ := canStr_toString _ h1
  obtain ⟨s2, hs2⟩ := canStr_toString _ h2
  obtain ⟨s3, hs3⟩ := canStr_toString _ h3
  obtain ⟨s4, hs4⟩ := canStr_toString _ h4
  obtain ⟨s5, hs5⟩ := canStr_toString _ h5
  simp only [searchRow, hs1, hs2, hs3, hs4, hs5, exceptBind_ok]
  split_ifs <;> exact ⟨_, rfl⟩

/-- The throwing filter succeeds when the callback succeeds on every
element. -/
theorem filterExc_ok {α : Type} (f : α → Except Unit Bool) (l : List α)
    (h : ∀ x ∈ l, ∃ b, f x = .ok b) : ∃ out, filterExc f l = .ok out := by
  induction l with
  | nil => exact ⟨[], rfl⟩
  | cons x xs ih =>
    obtain ⟨b, hb⟩ := h x (List.mem_cons_self x xs)
    obtain ⟨out, hout⟩ := ih (fun y hy => h y (List.mem_cons_of_mem x hy))
    refine ⟨if b then x :: out else out, ?_⟩
    simp only [filterExc, hb, hout, exceptBind_ok]
    rfl

/-- C3 (amended): the date, severity, and temperature predicates never
raise, so the pipeline cannot raise while the search term is empty;
and when every field the search predicate stringifies is non-null and
defined in every record, the pipeline cannot raise either.  The
original claim fails because the search predicate calls .toString() on
SCORE, POSITION_YARDS, LATITUDE, LONGITUDE and RECORDING_ID, which
throws a TypeError on a null or undefined field instead of treating
that field as non-matching. -/
theorem C3_amended_no_throw (p : String → Option ℚ) (F : FilterState)
    (data : List Record)
    (h : F.searchTerm = "" ∨ ∀ r ∈ data, recStringifiable r = true) :
    ∃ out, filterPipeline p F data = .ok out := by
  rw [filterPipeline]
  rcases h with h | h
  · exact ⟨preSearch p F data, by rw [if_pos h]⟩
  · split
    · exact ⟨preSearch p F data, rfl⟩
    · exact filterExc_ok _ _ (fun r hr =>
        searchRow_ok_of_stringifiable F.searchTerm r
          (h r (mem_preSearch p F data r hr)))

/-- C3 witness: a concrete pipeline run with an empty search term
succeeds. -/
theorem C3_amended_no_throw_witness :
    ∃ out, filterPipeline (fun _ => none) openFilterState [] = .ok out :=
  C3_amended_no_throw (fun _ => none) openFilterState [] (Or.inl rfl)

/-- A record with a null RECORDING_ID, as Papa.parse produces for an
empty cell under dynamicTyping. -/
def C3rec : Record :=
  { UNIX_TIME := .num 0, LATITUDE := .num 2, LONGITUDE := .num 3,
    POSITION_YARDS := .num 1, SCORE := .num 50, RECORDING_ID := .null,
    date := "Invalid Date", severity := "low" }

/-- A FilterState with open bounds and the search term z. -/
def C3filter : FilterState :=
  { dateFrom := none, dateTo := none, selectedSeverity := "all",
    tempMin := none, tempMax := none, searchTerm := "z" }

/-- C3 (counterexample): on a record whose RECORDING_ID is null and
whose other fields do not contain the one-letter search term, the
filter pipeline throws (RECORDING_ID.toString() raises a TypeError),
so the claim that the pipeline never raises and treats such a field as
merely non-matching is false on the code. -/
theorem C3_counterexample :
    filterPipeline (fun _ => none) C3filter [C3rec] = .error () := by rfl

/-- Pure on Except is ok. -/
theorem exceptPure {α : Type} (a : α) : (pure a : Except Unit α) = .ok a := rfl

/-- C5 (amended): with a non-empty search term and stringifiable
fields, the search predicate matches iff the lowercased term occurs in
the lowercased displayTimestamp or in the raw, not lowercased,
stringification of SCORE, POSITION_YARDS, LATITUDE, LONGITUDE or
RECORDING_ID (OR across the six fields), and the search stage is
AND-combined with the other predicate stages, filtering their output.
Full case-insensitivity therefore holds only for the displayTimestamp
field: the code lowercases the term and row.date but not the other
five stringified fields, so a field whose text contains uppercase
letters is matched case-sensitively. -/
theorem C5_amended_search_semantics (t : String) (r : Record)
    (s1 s2 s3 s4 s5 : String) (ht : t ≠ "")
    (h1 : jsToString r.SCORE = .ok s1)
    (h2 : jsToString r.POSITION_YARDS = .ok s2)
    (h3 : jsToString r.LATITUDE = .ok s3)
    (h4 : jsToString r.LONGITUDE = .ok s4)
    (h5 : jsToString r.RECORDING_ID = .ok s5) :
    searchRow t r = .ok (hasSub (strLower r.date) (strLower t) ||
      hasSub s1 (strLower t) || hasSub s2 (strLower t) ||
      hasSub s3 (strLower t) || hasSub s4 (strLower t) ||
      hasSub s5 (strLower t)) ∧
    (∀ (p : String → Option ℚ) (F : FilterState) (data : List Record),
      F.searchTerm = t →
      filterPipeline p F data = filterExc (searchRow t) (preSearch p F data)) := by
  constructor
  · simp only [searchRow, h1, h2, h3, h4, h5, exceptBind_ok]
    split_ifs <;> simp_all [exceptPure]
  · intro p F data hF
    rw [filterPipeline, hF, if_neg ht]

/-- A record whose RECORDING_ID is the uppercase string AB. -/
def C5rec : Record :=
  { UNIX_TIME := .num 0, LATITUDE := .num 3, LONGITUDE := .num 4,
    POSITION_YARDS := .num 2, SCORE := .num 1, RECORDING_ID := .str "AB",
    date := "x", severity := "low" }

/-- A FilterState with open bounds and the search term AB. -/
def C5filter : FilterState :=
  { dateFrom := none, dateTo := none, selectedSeverity := "all",
    tempMin := none, tempMax := none, searchTerm := "AB" }

/-- C5 witness: the amended characterization evaluated on the sample
record with the lowercase term ab. -/
theorem C5_amended_search_semantics_witness :
    searchRow ("ab") C5rec = .ok (hasSub (strLower C5rec.date) (strLower ("ab")) ||
      hasSub ("1") (strLower ("ab")) || hasSub ("2") (strLower ("ab")) ||
      hasSub ("3") (strLower ("ab")) || hasSub ("4") (strLower ("ab")) ||
      hasSub ("AB") (strLower ("ab"))) :=
  (C5_amended_search_semantics ("ab") C5rec ("1") ("2") ("3") ("4") ("AB")
    (by decide) rfl rfl rfl rfl rfl).1

/-- C5 (counterexample): a record whose RECORDING_ID is the uppercase
string AB, searched with the term AB: the spec predicate
(case-insensitive substring on every field) matches, but the code
predicate returns false (the term is lowercased to ab while the field
stays AB) and the pipeline drops the record, so case-insensitivity
does not hold for every one of the six fields. -/
theorem C5_counterexample :
    specSearchMatches ("AB") C5rec = true ∧
    searchRow ("AB") C5rec = .ok false ∧
    filterPipeline (fun _ => none) C5filter [C5rec] = .ok [] :=
  ⟨rfl, rfl, rfl⟩

/-- Folding the JavaScript two-argument minimum over defined values
computes the rational minimum. -/
theorem foldl_jsMin2_some (qs : List ℚ) (q : ℚ) :
    (qs.map some).foldl jsMin2 (some q) = some (qs.foldl min q) := by
  induction qs generalizing q with
  | nil => rfl
  | cons a as ih =>
    simp only [List.map_cons, List.foldl_cons, jsMin2]
    exact ih (min q a)

/-- Folding the JavaScript two-argument maximum over defined values
computes the rational maximum. -/
theorem foldl_jsMax2_some (qs : List ℚ) (q : ℚ) :
    (qs.map some).foldl jsMax2 (some q) = some (qs.foldl max q) := by
  induction qs generalizing q with
  | nil => rfl
  | cons a as ih =>
    simp only [List.map_cons, List.foldl_cons, jsMax2]
    exact ih (max q a)

/-- C6: for a non-empty record list with numeric coordinates, the
computed map center is the midpoint of the latitude and longitude
extremes and the bounds rectangle is the pair of extreme corners; for
the empty list no map view is produced at all (the explicit no-bounds
signal under which the map is not rendered), not a default
rectangle. -/
theorem C6_bounds_center (r : Record) (rs : List Record) (q0 p0 : ℚ)
    (qs ps : List ℚ)
    (hlat0 : jsToNumber r.LATITUDE = some q0)
    (hlat : rs.map (fun d => jsToNumber d.LATITUDE) = qs.map some)
    (hlng0 : jsToNumber r.LONGITUDE = some p0)
    (hlng : rs.map (fun d => jsToNumber d.LONGITUDE) = ps.map some) :
    computeMapView (r :: rs) =
      some ((some ((listMinQ q0 qs + listMaxQ q0 qs) / 2),
             some ((listMinQ p0 ps + listMaxQ p0 ps) / 2)),
            { corner1 := (some (listMinQ q0 qs), some (listMinQ p0 ps)),
              corner2 := (some (listMaxQ q0 qs), some (listMaxQ p0 ps)) }) ∧
    computeMapView [] = none := by
  refine ⟨?_, rfl⟩
  simp only [computeMapView, hlat, hlng, hlat0, hlng0, foldl_jsMin2_some,
    foldl_jsMax2_some, jsAvg, listMinQ, listMaxQ]

/-- Sample record at latitude 10, longitude -5. -/
def C6rec1 : Record :=
  { UNIX_TIME := .num 0, LATITUDE := .num 10, LONGITUDE := .num (-5),
    POSITION_YARDS := .num 0, SCORE := .num 0, RECORDING_ID := .num 1,
    date := "d", severity := "low" }

/-- Sample record at latitude 20, longitude 0. -/
def C6rec2 : Record :=
  { UNIX_TIME := .num 0, LATITUDE := .num 20, LONGITUDE := .num 0,
    POSITION_YARDS := .num 0, SCORE := .num 0, RECORDING_ID := .num 2,
    date := "d", severity := "low" }

/-- Sample record at latitude 30, longitude 5. -/
def C6rec3 : Record :=
  { UNIX_TIME := .num 0, LATITUDE := .num 30, LONGITUDE := .num 5,
    POSITION_YARDS := .num 0, SCORE := .num 0, RECORDING_ID := .num 3,
    date := "d", severity := "low" }

/-- C6 witness: latitudes 10, 20, 30 and longitudes -5, 0, 5 give
center (20, 0) and bounds rectangle ((10, -5), (30, 5)). -/
theorem C6_bounds_center_witness :
    computeMapView [C6rec1, C6rec2, C6rec3] =
      some ((some 20, some 0),
            { corner1 := (some 10, some (-5)), corner2 := (some 30, some 5) }) := by
  have h := (C6_bounds_center C6rec1 [C6rec2, C6rec3] 10 (-5) [20, 30] [0, 5]
    rfl rfl rfl rfl).1
  rw [h]
  norm_num [listMinQ, listMaxQ, List.foldl_cons, List.foldl_nil]
